import Mathlib

/-!
Verification of the retail sales forecasting app (src/app.py).

The app loads a serialized model and a store reference table, collects user
inputs through widgets, assembles an 18-field feature row, and feeds it to the
model when the predict button is pressed.  Numeric values (Python ints and
floats) are embedded as rationals; the one-row pandas DataFrame is embedded as
an ordered association list from column name to value; the loaded model is an
abstract function from such a row to a predicted scalar.  Fallible steps
(missing files, failed lookups, missing columns) are embedded with Option,
where none stands for an uncaught Python exception.
-/

/-- One row of the store reference table: the Store, Type and Size columns of
the file named stores data-set.csv. -/
structure StoreRecord where
  store : Nat
  typ : String
  size : Nat
deriving DecidableEq, Repr

/-- A calendar date as produced by the date input widget; the app reads only
the month and year components. -/
structure SDate where
  year : Nat
  month : Nat
  day : Nat
deriving DecidableEq, Repr

/-- A single data row: column names paired with numeric values, in order.
This embeds the one-row pandas DataFrame the app builds. -/
abbrev Row : Type := List (String × Rat)

/-- The loaded predictive model, seen only through its predict operation on a
single row (src/app.py line 122: model.predict on the one-row frame). -/
abbrev Model : Type := Row → Rat

/-- The raw user inputs collected by the widgets (src/app.py lines 53, 66,
69-70, 80-91): store and department numbers, date, holiday flag, four
economic sliders and five markdown amounts. -/
structure UserInputs where
  store : Nat
  dept : Nat
  date : SDate
  is_holiday : Bool
  temperature : Rat
  fuel_price : Rat
  cpi : Rat
  unemployment : Rat
  markdown1 : Rat
  markdown2 : Rat
  markdown3 : Rat
  markdown4 : Rat
  markdown5 : Rat
deriving DecidableEq, Repr

/-- The feature dictionary of src/app.py lines 102-111, in its literal
insertion order, given the resolved store size and store type. -/
def input_data (i : UserInputs) (store_size : Nat) (store_type : String) : Row :=
  [ ("Store", (i.store : Rat)), ("Dept", (i.dept : Rat)),
    ("IsHoliday", if i.is_holiday then 1 else 0),
    ("Size", (store_size : Rat)), ("Temperature", i.temperature),
    ("Fuel_Price", i.fuel_price),
    ("MarkDown1", i.markdown1), ("MarkDown2", i.markdown2),
    ("MarkDown3", i.markdown3),
    ("MarkDown4", i.markdown4), ("MarkDown5", i.markdown5), ("CPI", i.cpi),
    ("Unemployment", i.unemployment), ("Month", (i.date.month : Rat)),
    ("Year", (i.date.year : Rat)),
    ("Type_A", if store_type = "A" then 1 else 0),
    ("Type_B", if store_type = "B" then 1 else 0),
    ("Type_C", if store_type = "C" then 1 else 0) ]

/-- The exact column order of src/app.py lines 114-118. -/
def column_order : List String :=
  [ "Store", "Dept", "IsHoliday", "Size", "Temperature", "Fuel_Price",
    "MarkDown1", "MarkDown2", "MarkDown3", "MarkDown4", "MarkDown5",
    "CPI", "Unemployment", "Month", "Year", "Type_A", "Type_B", "Type_C" ]

/-- Column selection by name, embedding the pandas frame indexing
DataFrame(...)[column_order] of src/app.py line 119: each requested column is
looked up by name; a missing column raises, embedded as none. -/
def selectColumns (row : Row) (cols : List String) : Option Row :=
  cols.mapM fun c => (row.lookup c).map fun v => (c, v)

/-- The one-row frame input_df of src/app.py line 119: the feature dictionary
reindexed to the fixed column order. -/
def input_df (i : UserInputs) (store_size : Nat) (store_type : String) :
    Option Row :=
  selectColumns (input_data i store_size store_type) column_order

/-- The store lookup of src/app.py lines 56-59: under the truthiness guard on
the selected store number, the table rows with that store number are filtered
and the first is taken (iloc at position zero).  The result is the pair of the
Size and Type columns of that row; none embeds the uncaught exception raised
when no row matches, or the unbound variables when the guard is false. -/
def store_details (tbl : List StoreRecord) (store : Nat) :
    Option (Nat × String) :=
  if store ≠ 0 then
    ((tbl.filter fun r => r.store == store).head?).map fun r => (r.size, r.typ)
  else none

/-- The visible outcome of pressing the predict button: either the error
message of src/app.py line 98, or a completed prediction carrying the row sent
to the model (line 122), the predicted scalar, and the row displayed for
inspection (line 129). -/
inductive Outcome where
  | errorShown : Outcome
  | predicted : Row → Rat → Row → Outcome

/-- The store size and type in scope when the button handler runs, following
src/app.py lines 50-64: a table lookup when the table loaded, the placeholder
size 150000 and type A otherwise. -/
def resolveDetails (stores : Option (List StoreRecord)) (s : Nat) :
    Option (Nat × String) :=
  match stores with
  | some tbl => store_details tbl s
  | none => some (150000, "A")

/-- The whole interaction of src/app.py lines 50-129 for one press of the
predict button, given the two loaded resources and the user inputs.  First the
store details are resolved as the script renders (lines 50-64); then the
button handler checks that both resources are present (lines 96-98) and
either shows the error or assembles the row, calls the model and displays the
same row (lines 102-129).  none embeds an uncaught exception. -/
def runApp (mod : Option Model) (stores : Option (List StoreRecord))
    (i : UserInputs) : Option Outcome :=
  match resolveDetails stores i.store with
  | none => none
  | some (sz, ty) =>
      match mod, stores with
      | some m, some _ =>
          match input_df i sz ty with
          | some df => some (Outcome.predicted df (m df) df)
          | none => none
      | _, _ => some Outcome.errorShown

/-- What the filesystem holds at one of the two fixed paths: a readable file
with the parsed content, no file at all (open raises FileNotFoundError), or a
file whose read fails with some other exception (for example a permission
error or a parse error). -/
inductive FileOutcome (α : Type) where
  | found : α → FileOutcome α
  | missing : FileOutcome α
  | readError : FileOutcome α

/-- What a loader call produces when it returns: the handle (none meaning the
unavailable state) and whether the visible error message was shown. -/
structure LoadOutcome (α : Type) where
  handle : Option α
  errorShown : Bool

/-- The model loader of src/app.py lines 15-23: the try block loads the fixed
path sales_forecast_model.joblib; only FileNotFoundError is caught, showing
the error message and returning None; any other exception escapes, embedded
as none. -/
def load_model (f : FileOutcome Model) : Option (LoadOutcome Model) :=
  match f with
  | FileOutcome.found m => some { handle := some m, errorShown := false }
  | FileOutcome.missing => some { handle := none, errorShown := true }
  | FileOutcome.readError => none

/-- The table loader of src/app.py lines 25-33: the try block reads the fixed
path stores data-set.csv; only FileNotFoundError is caught, showing the error
message and returning None; any other exception escapes, embedded as none. -/
def load_store_data (f : FileOutcome (List StoreRecord)) :
    Option (LoadOutcome (List StoreRecord)) :=
  match f with
  | FileOutcome.found t => some { handle := some t, errorShown := false }
  | FileOutcome.missing => some { handle := none, errorShown := true }
  | FileOutcome.readError => none

/-- The resource caches put on the loaders by src/app.py lines 15 and 25: a
call with a populated cache returns the cached result untouched; a first call
runs the loader and stores its result for the rest of the process. -/
def cachedCall {α β : Type} (loader : α → β) (arg : α)
    (cache : Option β) : β × Option β :=
  match cache with
  | some r => (r, some r)
  | none => (loader arg, some (loader arg))

/-- Modelled from the spec: the reference table file stores data-set.csv is
repository data that is not under src; per the spec, its row for store 1 has
category A and size 151315.  Only that row is needed for the scenario. -/
def specStoresTable : List StoreRecord :=
  [ { store := 1, typ := "A", size := 151315 } ]

/-- The scenario inputs from the spec test section: store 1, department 1,
date 2022-12-02, no holiday, the four sliders at their widget default values
(src/app.py lines 80-83) and all five markdowns zero. -/
def scenarioInputs : UserInputs :=
  { store := 1, dept := 1, date := { year := 2022, month := 12, day := 2 },
    is_holiday := false, temperature := 65, fuel_price := 3.5, cpi := 195,
    unemployment := 7.5, markdown1 := 0, markdown2 := 0, markdown3 := 0,
    markdown4 := 0, markdown5 := 0 }

/-- A concrete model handle used to exercise the theorems on closed inputs:
it predicts zero on every row. -/
def sampleModel : Model := fun _ => 0

/-- A concrete one-row reference table used to exercise the theorems. -/
def sampleTable : List StoreRecord :=
  [ { store := 1, typ := "A", size := 151315 } ]

/-- The concrete feature row assembled from the scenario inputs and the
looked-up details of store 1. -/
def sampleRow : Row := input_data scenarioInputs 151315 "A"

lemma input_df_eq (i : UserInputs) (sz : Nat) (ty : String) :
    input_df i sz ty = some (input_data i sz ty) := by
  rfl

lemma lookup_Size (i : UserInputs) (sz : Nat) (ty : String) :
    (input_data i sz ty).lookup "Size" = some (sz : Rat) := rfl

lemma lookup_IsHoliday (i : UserInputs) (sz : Nat) (ty : String) :
    (input_data i sz ty).lookup "IsHoliday"
      = some (if i.is_holiday then (1 : Rat) else 0) := rfl

lemma lookup_Month (i : UserInputs) (sz : Nat) (ty : String) :
    (input_data i sz ty).lookup "Month" = some ((i.date.month : Rat)) := rfl

lemma lookup_Year (i : UserInputs) (sz : Nat) (ty : String) :
    (input_data i sz ty).lookup "Year" = some ((i.date.year : Rat)) := rfl

lemma lookup_TypeA (i : UserInputs) (sz : Nat) (ty : String) :
    (input_data i sz ty).lookup "Type_A"
      = some (if ty = "A" then (1 : Rat) else 0) := rfl

lemma lookup_TypeB (i : UserInputs) (sz : Nat) (ty : String) :
    (input_data i sz ty).lookup "Type_B"
      = some (if ty = "B" then (1 : Rat) else 0) := rfl

lemma lookup_TypeC (i : UserInputs) (sz : Nat) (ty : String) :
    (input_data i sz ty).lookup "Type_C"
      = some (if ty = "C" then (1 : Rat) else 0) := rfl

lemma mem_of_head_eq {α : Type} {l : List α} {a : α}
    (h : l.head? = some a) : a ∈ l := by
  cases l with
  | nil => cases h
  | cons b t =>
      injection h with h
      subst h
      exact List.mem_cons_self b t

lemma head_filter_of_mem {p : StoreRecord → Bool} {tbl : List StoreRecord}
    {x : StoreRecord} (hx : x ∈ tbl) (hpx : p x = true) :
    ∃ r, (tbl.filter p).head? = some r ∧ r ∈ tbl ∧ p r = true := by
  have hne : tbl.filter p ≠ [] := by
    intro hnil
    have : x ∈ tbl.filter p := List.mem_filter.mpr ⟨hx, hpx⟩
    rw [hnil] at this
    cases this
  cases hf : tbl.filter p with
  | nil => exact absurd hf hne
  | cons r t =>
      have hrmem : r ∈ tbl.filter p := by
        rw [hf]; exact List.mem_cons_self r t
      have := List.mem_filter.mp hrmem
      exact ⟨r, rfl, this.1, this.2⟩

lemma store_details_inv {tbl : List StoreRecord} {s sz : Nat} {ty : String}
    (h : store_details tbl s = some (sz, ty)) :
    ∃ r, r ∈ tbl ∧ r.store = s ∧ r.size = sz ∧ r.typ = ty := by
  unfold store_details at h
  by_cases hs : s ≠ 0
  · rw [if_pos hs] at h
    rcases Option.map_eq_some'.mp h with ⟨r, hhead, heq⟩
    have hrf : r ∈ tbl.filter fun r => r.store == s := mem_of_head_eq hhead
    have hm := List.mem_filter.mp hrf
    have hst : r.store = s := by
      have := hm.2
      simpa using this
    injection heq with h1 h2
    exact ⟨r, hm.1, hst, h1, h2⟩
  · rw [if_neg hs] at h
    cases h

lemma runApp_predicted_inv {mod : Option Model}
    {stores : Option (List StoreRecord)} {i : UserInputs} {df d : Row}
    {res : Rat}
    (h : runApp mod stores i = some (Outcome.predicted df res d)) :
    ∃ m tbl sz ty, mod = some m ∧ stores = some tbl ∧
      store_details tbl i.store = some (sz, ty) ∧
      df = input_data i sz ty ∧ d = df ∧ res = m df := by
  unfold runApp at h
  cases stores with
  | none =>
      cases mod with
      | none => simp [resolveDetails] at h
      | some m => simp [resolveDetails] at h
  | some tbl =>
      cases hd : store_details tbl i.store with
      | none => simp [resolveDetails, hd] at h
      | some p =>
          obtain ⟨sz, ty⟩ := p
          cases mod with
          | none => simp [resolveDetails, hd] at h
          | some m =>
              simp only [resolveDetails, hd, input_df_eq] at h
              injection h with h
              injection h with h1 h2 h3
              subst h1
              subst h2
              subst h3
              exact ⟨m, tbl, sz, ty, rfl, rfl, hd, rfl, rfl, rfl⟩

/-- Claim C1: for every prediction request, the feature row passed to the
predict operation of the model has its 18 fields in exactly the fixed order
Store, Dept, IsHoliday, Size, Temperature, Fuel_Price, MarkDown1 through
MarkDown5, CPI, Unemployment, Month, Year, Type_A, Type_B, Type_C, regardless
of the input values. -/
theorem c1_vector_field_order (mod : Option Model)
    (stores : Option (List StoreRecord)) (i : UserInputs) (df d : Row)
    (res : Rat)
    (h : runApp mod stores i = some (Outcome.predicted df res d)) :
    df.map Prod.fst
      = ["Store", "Dept", "IsHoliday", "Size", "Temperature", "Fuel_Price",
         "MarkDown1", "MarkDown2", "MarkDown3", "MarkDown4", "MarkDown5",
         "CPI", "Unemployment", "Month", "Year", "Type_A", "Type_B",
         "Type_C"] := by
  rcases runApp_predicted_inv h with ⟨m, tbl, sz, ty, _, _, _, hdf, _, _⟩
  subst hdf
  rfl

/-- Witness for claim C1 at a concrete run of the app. -/
theorem c1_vector_field_order_witness :
    sampleRow.map Prod.fst
      = ["Store", "Dept", "IsHoliday", "Size", "Temperature", "Fuel_Price",
         "MarkDown1", "MarkDown2", "MarkDown3", "MarkDown4", "MarkDown5",
         "CPI", "Unemployment", "Month", "Year", "Type_A", "Type_B",
         "Type_C"] :=
  c1_vector_field_order (some sampleModel) (some sampleTable) scenarioInputs
    sampleRow sampleRow 0 (by rfl)

/-- Claim C2: when the predict button fires while the model or the table
failed to load, the visible error is shown and nothing else happens: the
outcome carries no feature row and no prediction.  The side condition on the
table reflects the closed selection widget of src/app.py lines 52-53, which
only offers store numbers drawn from the loaded table. -/
theorem c2_missing_resource_error (mod : Option Model)
    (stores : Option (List StoreRecord)) (i : UserInputs)
    (hmiss : mod = none ∨ stores = none)
    (hsel : ∀ tbl, stores = some tbl →
      ∃ x, x ∈ tbl ∧ x.store = i.store ∧ i.store ≠ 0) :
    runApp mod stores i = some Outcome.errorShown := by
  cases stores with
  | none =>
      cases mod with
      | none => rfl
      | some m => rfl
  | some tbl =>
      have hmod : mod = none := by
        rcases hmiss with h | h
        · exact h
        · exact Option.noConfusion h
      subst hmod
      rcases hsel tbl rfl with ⟨x, hx, hst, hs0⟩
      rcases head_filter_of_mem (p := fun r => r.store == i.store) hx
        (by simp [hst]) with ⟨r, hhead, _, _⟩
      have hrd : resolveDetails (some tbl) i.store = some (r.size, r.typ) := by
        show store_details tbl i.store = some (r.size, r.typ)
        unfold store_details
        rw [if_pos hs0, hhead]
        rfl
      unfold runApp
      rw [hrd]

/-- Witness for claim C2: table loaded, model missing. -/
theorem c2_missing_resource_error_witness :
    runApp none (some sampleTable) scenarioInputs = some Outcome.errorShown :=
  c2_missing_resource_error none (some sampleTable) scenarioInputs
    (Or.inl rfl)
    (by
      intro tbl htbl
      injection htbl with htbl
      subst htbl
      exact ⟨{ store := 1, typ := "A", size := 151315 }, by decide, rfl,
        by decide⟩)

/-- Claim C3: the three category indicators in the assembled row are set by
exact string match on the category label: exactly one of them is 1 when the
label is one of the three known codes, all three are 0 when it matches none
of them, and never is more than one of them 1. -/
theorem c3_onehot_indicators (i : UserInputs) (sz : Nat) (ty : String) :
    ∃ df a b c, input_df i sz ty = some df ∧
      df.lookup "Type_A" = some a ∧ df.lookup "Type_B" = some b ∧
      df.lookup "Type_C" = some c ∧
      (ty = "A" → a = 1 ∧ b = 0 ∧ c = 0) ∧
      (ty = "B" → a = 0 ∧ b = 1 ∧ c = 0) ∧
      (ty = "C" → a = 0 ∧ b = 0 ∧ c = 1) ∧
      (ty ≠ "A" ∧ ty ≠ "B" ∧ ty ≠ "C" → a = 0 ∧ b = 0 ∧ c = 0) ∧
      ¬ ((a = 1 ∧ b = 1) ∨ (a = 1 ∧ c = 1) ∨ (b = 1 ∧ c = 1)) := by
  refine ⟨input_data i sz ty, if ty = "A" then 1 else 0,
    if ty = "B" then 1 else 0, if ty = "C" then 1 else 0,
    input_df_eq i sz ty, lookup_TypeA i sz ty, lookup_TypeB i sz ty,
    lookup_TypeC i sz ty, ?_, ?_, ?_, ?_, ?_⟩ <;>
    by_cases hA : ty = "A" <;> by_cases hB : ty = "B" <;>
    by_cases hC : ty = "C" <;> simp_all

/-- Witness for claim C3 at the concrete label A. -/
theorem c3_onehot_indicators_witness :
    ∃ df a b c, input_df scenarioInputs 151315 "A" = some df ∧
      df.lookup "Type_A" = some a ∧ df.lookup "Type_B" = some b ∧
      df.lookup "Type_C" = some c ∧
      ("A" = "A" → a = 1 ∧ b = 0 ∧ c = 0) ∧
      ("A" = "B" → a = 0 ∧ b = 1 ∧ c = 0) ∧
      ("A" = "C" → a = 0 ∧ b = 0 ∧ c = 1) ∧
      ("A" ≠ "A" ∧ "A" ≠ "B" ∧ "A" ≠ "C" → a = 0 ∧ b = 0 ∧ c = 0) ∧
      ¬ ((a = 1 ∧ b = 1) ∨ (a = 1 ∧ c = 1) ∨ (b = 1 ∧ c = 1)) :=
  c3_onehot_indicators scenarioInputs 151315 "A"

/-- Claim C4: for every valid store number present in the reference table,
the Size and Type values placed in the feature row exactly match the row of
the table for that store number (the first matching row, as the lookup takes
the row at position zero of the filtered frame). -/
theorem c4_lookup_matches_table (tbl : List StoreRecord) (i : UserInputs)
    (h0 : i.store ≠ 0) (hmem : ∃ x, x ∈ tbl ∧ x.store = i.store) :
    ∃ r df, r ∈ tbl ∧ r.store = i.store ∧
      store_details tbl i.store = some (r.size, r.typ) ∧
      input_df i r.size r.typ = some df ∧
      df.lookup "Size" = some ((r.size : Rat)) ∧
      df.lookup "Type_A" = some (if r.typ = "A" then 1 else 0) ∧
      df.lookup "Type_B" = some (if r.typ = "B" then 1 else 0) ∧
      df.lookup "Type_C" = some (if r.typ = "C" then 1 else 0) := by
  rcases hmem with ⟨x, hx, hst⟩
  rcases head_filter_of_mem (p := fun r => r.store == i.store) hx
    (by simp [hst]) with ⟨r, hhead, hrmem, hp⟩
  have hrst : r.store = i.store := by simpa using hp
  refine ⟨r, input_data i r.size r.typ, hrmem, hrst, ?_,
    input_df_eq i r.size r.typ, lookup_Size i r.size r.typ,
    lookup_TypeA i r.size r.typ, lookup_TypeB i r.size r.typ,
    lookup_TypeC i r.size r.typ⟩
  unfold store_details
  rw [if_pos h0, hhead]
  rfl

/-- Witness for claim C4 on the concrete one-row table. -/
theorem c4_lookup_matches_table_witness :
    ∃ r df, r ∈ sampleTable ∧ r.store = scenarioInputs.store ∧
      store_details sampleTable scenarioInputs.store
        = some (r.size, r.typ) ∧
      input_df scenarioInputs r.size r.typ = some df ∧
      df.lookup "Size" = some ((r.size : Rat)) ∧
      df.lookup "Type_A" = some (if r.typ = "A" then 1 else 0) ∧
      df.lookup "Type_B" = some (if r.typ = "B" then 1 else 0) ∧
      df.lookup "Type_C" = some (if r.typ = "C" then 1 else 0) :=
  c4_lookup_matches_table sampleTable scenarioInputs (by decide)
    ⟨{ store := 1, typ := "A", size := 151315 }, by decide, rfl⟩

/-- Counterexample to claim C5 as stated: for a file that exists but cannot
be read (the readError case, for example a permission error), the loader does
not produce the unavailable state with a warning; the exception escapes as an
uncaught fault, because the source catches FileNotFoundError only. -/
theorem c5_counterexample :
    load_model FileOutcome.readError = none ∧
    load_model FileOutcome.readError
      ≠ some { handle := none, errorShown := true } ∧
    load_store_data FileOutcome.readError = none ∧
    load_store_data FileOutcome.readError
      ≠ some { handle := none, errorShown := true } := by
  refine ⟨rfl, ?_, rfl, ?_⟩ <;> intro h <;> simp [load_model, load_store_data] at h

/-- Claim C5 as amended: each loader, on failure because its file is absent,
yields the unavailable state (a None handle) together with the visible
warning; on success it yields the loaded handle with no warning; and the
cache returns the stored result on every later call, so the first result is
reused for the remainder of the process.  Failures other than an absent file
escape as uncaught exceptions. -/
theorem c5_loaders_amended :
    (load_model FileOutcome.missing
       = some { handle := none, errorShown := true }) ∧
    (load_store_data FileOutcome.missing
       = some { handle := none, errorShown := true }) ∧
    (∀ m : Model, load_model (FileOutcome.found m)
       = some { handle := some m, errorShown := false }) ∧
    (∀ t : List StoreRecord, load_store_data (FileOutcome.found t)
       = some { handle := some t, errorShown := false }) ∧
    (∀ (α β : Type) (loader : α → β) (x : α) (r : β),
       cachedCall loader x (some r) = (r, some r)) ∧
    (∀ (α β : Type) (loader : α → β) (x : α),
       cachedCall loader x (cachedCall loader x none).2
         = ((cachedCall loader x none).1, (cachedCall loader x none).2)) :=
  ⟨rfl, rfl, fun _ => rfl, fun _ => rfl, fun _ _ _ _ _ => rfl,
    fun _ _ _ _ => rfl⟩

/-- Claim C6: the IsHoliday field of the assembled row is 1 when the holiday
flag is true and 0 when it is false. -/
theorem c6_holiday_encoding (i : UserInputs) (sz : Nat) (ty : String) :
    ∃ df, input_df i sz ty = some df ∧
      (i.is_holiday = true → df.lookup "IsHoliday" = some 1) ∧
      (i.is_holiday = false → df.lookup "IsHoliday" = some 0) := by
  refine ⟨input_data i sz ty, input_df_eq i sz ty, ?_, ?_⟩ <;>
    intro h <;> rw [lookup_IsHoliday, h] <;> rfl

/-- Witness for claim C6 at the concrete scenario inputs. -/
theorem c6_holiday_encoding_witness :
    ∃ df, input_df scenarioInputs 151315 "A" = some df ∧
      (scenarioInputs.is_holiday = true → df.lookup "IsHoliday" = some 1) ∧
      (scenarioInputs.is_holiday = false → df.lookup "IsHoliday" = some 0) :=
  c6_holiday_encoding scenarioInputs 151315 "A"

/-- Claim C7: the Month and Year fields of the assembled row equal the month
and year components of the supplied date. -/
theorem c7_month_year_from_date (i : UserInputs) (sz : Nat) (ty : String) :
    ∃ df, input_df i sz ty = some df ∧
      df.lookup "Month" = some ((i.date.month : Rat)) ∧
      df.lookup "Year" = some ((i.date.year : Rat)) :=
  ⟨input_data i sz ty, input_df_eq i sz ty, lookup_Month i sz ty,
    lookup_Year i sz ty⟩

/-- Witness for claim C7 at the concrete scenario inputs. -/
theorem c7_month_year_from_date_witness :
    ∃ df, input_df scenarioInputs 151315 "A" = some df ∧
      df.lookup "Month" = some ((scenarioInputs.date.month : Rat)) ∧
      df.lookup "Year" = some ((scenarioInputs.date.year : Rat)) :=
  c7_month_year_from_date scenarioInputs 151315 "A"

/-- Claim C8: for the concrete scenario inputs (store 1 with category A and
size 151315 in the reference table, department 1, date 2022-12-02, holiday
false, sliders at their defaults, markdowns zero), the assembled feature row
has Type_A 1, Type_B 0, Type_C 0, IsHoliday 0, Month 12, Year 2022 and
Size 151315. -/
theorem c8_scenario_a :
    ∃ df, store_details specStoresTable scenarioInputs.store
        = some (151315, "A") ∧
      input_df scenarioInputs 151315 "A" = some df ∧
      df.lookup "Type_A" = some 1 ∧ df.lookup "Type_B" = some 0 ∧
      df.lookup "Type_C" = some 0 ∧ df.lookup "IsHoliday" = some 0 ∧
      df.lookup "Month" = some 12 ∧ df.lookup "Year" = some 2022 ∧
      df.lookup "Size" = some 151315 := by
  refine ⟨input_data scenarioInputs 151315 "A", ?_, ?_, ?_, ?_, ?_, ?_, ?_,
    ?_, ?_⟩ <;> rfl

/-- Claim C9: every feature row that reaches the predict operation has its
Size and the three category indicators derived from an actual row of the
loaded reference table; the placeholder branch (size 150000, type A, taken
only when the table failed to load) can never feed the model, because the
button handler requires the table to be loaded. -/
theorem c9_no_placeholder_to_model (mod : Option Model)
    (stores : Option (List StoreRecord)) (i : UserInputs) (df d : Row)
    (res : Rat)
    (h : runApp mod stores i = some (Outcome.predicted df res d)) :
    ∃ tbl r, stores = some tbl ∧ r ∈ tbl ∧ r.store = i.store ∧
      df.lookup "Size" = some ((r.size : Rat)) ∧
      df.lookup "Type_A" = some (if r.typ = "A" then 1 else 0) ∧
      df.lookup "Type_B" = some (if r.typ = "B" then 1 else 0) ∧
      df.lookup "Type_C" = some (if r.typ = "C" then 1 else 0) := by
  rcases runApp_predicted_inv h with
    ⟨m, tbl, sz, ty, hmod, hst, hd, hdf, hdisp, hres⟩
  rcases store_details_inv hd with ⟨r, hrmem, hrst, hsz, hty⟩
  subst hdf
  subst hsz
  subst hty
  exact ⟨tbl, r, hst, hrmem, hrst, lookup_Size i r.size r.typ,
    lookup_TypeA i r.size r.typ, lookup_TypeB i r.size r.typ,
    lookup_TypeC i r.size r.typ⟩

/-- Witness for claim C9 at a concrete completed prediction. -/
theorem c9_no_placeholder_to_model_witness :
    ∃ tbl r, (some sampleTable : Option (List StoreRecord)) = some tbl ∧
      r ∈ tbl ∧ r.store = scenarioInputs.store ∧
      sampleRow.lookup "Size" = some ((r.size : Rat)) ∧
      sampleRow.lookup "Type_A" = some (if r.typ = "A" then 1 else 0) ∧
      sampleRow.lookup "Type_B" = some (if r.typ = "B" then 1 else 0) ∧
      sampleRow.lookup "Type_C" = some (if r.typ = "C" then 1 else 0) :=
  c9_no_placeholder_to_model (some sampleModel) (some sampleTable)
    scenarioInputs sampleRow sampleRow 0 (by rfl)

/-- Claim C10: feature-row assembly is deterministic: two button presses with
identical inputs against the same loaded resources yield identical rows field
for field, and the row displayed for inspection is exactly the row passed to
the model. -/
theorem c10_deterministic_assembly (mod : Option Model)
    (stores : Option (List StoreRecord)) (i j : UserInputs)
    (df1 df2 d1 d2 : Row) (r1 r2 : Rat)
    (hij : i = j)
    (h1 : runApp mod stores i = some (Outcome.predicted df1 r1 d1))
    (h2 : runApp mod stores j = some (Outcome.predicted df2 r2 d2)) :
    df1 = df2 ∧ r1 = r2 ∧ d1 = df1 ∧ d2 = df2 := by
  subst hij
  rcases runApp_predicted_inv h1 with ⟨m, tbl, sz, ty, _, _, _, _, hdisp, _⟩
  rw [h1] at h2
  injection h2 with h2
  injection h2 with ha hb hc
  exact ⟨ha, hb, hdisp, by rw [← hc, hdisp, ha]⟩

/-- Witness for claim C10 at a concrete repeated run. -/
theorem c10_deterministic_assembly_witness :
    sampleRow = sampleRow ∧ (0 : Rat) = 0 ∧ sampleRow = sampleRow ∧
      sampleRow = sampleRow :=
  c10_deterministic_assembly (some sampleModel) (some sampleTable)
    scenarioInputs scenarioInputs sampleRow sampleRow sampleRow sampleRow 0 0
    rfl (by rfl) (by rfl)
